import Mathlib

/-
  Verification development for the CiteGuard repository.

  Shallow embedding of the two core components:
  - the similarity scorer, from src/backend/app/services/similarity.py
    (SimilarityService.analyze_document, _analyze_semantic, _analyze_simple);
  - the citation formatter, of which the repository holds TWO implementations:
    the backend service in src/backend/app/services/citation.py (namespace Backend)
    and the standalone module src/Citation.py (namespace RootCit).

  Conventions: Python floats are modelled as exact rationals; Python sets of
  words as Finset String; Python dict-with-defaults access as structure fields
  with default values; a Python function that can raise is modelled as a
  function into Except String.
-/

namespace CiteGuard

/-- One step of the whitespace splitter: a whitespace character opens a new
(possibly empty) piece, any other character is prepended to the current piece. -/
def splitStep (c : Char) (acc : List (List Char)) : List (List Char) :=
  if c.isWhitespace then [] :: acc
  else
    match acc with
    | [] => [[c]]
    | w :: ws => (c :: w) :: ws

/-- Python str.split() with no argument: split on runs of whitespace and drop
empty pieces (structural recursion over the character list, so that the
kernel can evaluate it on concrete inputs). -/
def pysplit (s : String) : List String :=
  ((s.data.foldr splitStep [[]]).filter (fun w => w ≠ [])).map (fun w => String.mk w)

/-- Python str.lower(), character by character (the texts of interest are
ASCII). -/
def pylower (s : String) : String :=
  String.mk (s.data.map Char.toLower)

/-- Python set(text.lower().split()): the set of distinct lower-cased
whitespace-delimited words of a text. -/
def wordSet (s : String) : Finset String :=
  (pysplit (pylower s)).toFinset

/-- One entry of the sources list passed to analyze_document: a Python dict
read with source.get("content", "") and source.get("title", "Unknown"). -/
structure SourceDoc where
  title : String := "Unknown"
  content : String := ""
deriving DecidableEq, Repr

/-- The result dict produced by the similarity service. -/
structure SimilarityResult where
  plagiarism_score : ℚ
  flagged_sections : ℕ
  recommendations : List String
  total_matches : ℕ
  sources_checked : ℕ
deriving DecidableEq, Repr

/-- Rendering of the Python f-string piece {x*100:.1f} used only inside
recommendation strings (one decimal digit). -/
def fmtPct (q : ℚ) : String :=
  let n : Int := (q * 1000 + 1 / 2).floor
  toString (n / 10) ++ "." ++ toString (n % 10)

/-- Python dict assignment d[k] = v on an insertion-ordered dict, modelled on
an association list: overwrite in place when the key exists, append otherwise. -/
def upsert (m : List (String × ℚ × ℕ)) (k : String) (v : ℚ × ℕ) :
    List (String × ℚ × ℕ) :=
  if m.any (fun p => p.1 = k) then
    m.map (fun p => if p.1 = k then (k, v) else p)
  else m ++ [(k, v)]

/-- Per-source word-overlap similarity of _analyze_simple:
len(doc_words intersection source_words) / doc_word_count (0 when the document
word count is 0, mirroring the inline guard in the source). -/
def simpleSim (doc_words : Finset String) (content : String) : ℚ :=
  let common := doc_words ∩ wordSet content
  if 0 < doc_words.card then (common.card : ℚ) / (doc_words.card : ℚ) else 0

/-- The aggregation shared by both strategies:
(max similarities + sum similarities / len similarities) / 2, on a nonempty
list; the empty case is unreachable in the call sites. -/
def aggScore : List ℚ → ℚ
  | [] => 0
  | s0 :: rest =>
      (rest.foldl max s0 + (s0 :: rest).sum / ((s0 :: rest).length : ℚ)) / 2

/-- SimilarityService._analyze_simple from
src/backend/app/services/similarity.py (word-overlap fallback). -/
def analyze_simple (document_text : String) (sources : List SourceDoc) :
    SimilarityResult :=
  let doc_words := wordSet document_text
  if doc_words.card = 0 then
    { plagiarism_score := 0, flagged_sections := 0,
      recommendations := ["Empty document provided"],
      total_matches := 0, sources_checked := 0 }
  else
    let valid := sources.filter (fun s => s.content ≠ "")
    let sims := valid.map (fun s => simpleSim doc_words s.content)
    if sims = [] then
      { plagiarism_score := 0, flagged_sections := 0,
        recommendations := ["No sources provided"],
        total_matches := 0, sources_checked := 0 }
    else
      let score := aggScore sims
      let matches_by_source := valid.foldl
        (fun acc s =>
          upsert acc s.title
            (simpleSim doc_words s.content, (doc_words ∩ wordSet s.content).card))
        []
      let recs :=
        if (0.4 : ℚ) < score then
          ("⚠️ Significant word overlap (" ++ fmtPct score ++ "%) detected") ::
            ((matches_by_source.filter (fun p => (0.3 : ℚ) < p.2.1)).map
              (fun p => "  • " ++ p.1 ++ ": " ++ toString p.2.2 ++ " matching words"))
        else ["✓ Low similarity with stored documents"]
      { plagiarism_score := score,
        flagged_sections := (sims.filter (fun s => (0.3 : ℚ) < s)).length,
        recommendations := recs,
        total_matches := (sims.filter (fun s => (0.15 : ℚ) < s)).length,
        sources_checked := sources.length }

/-- SimilarityService._analyze_semantic from
src/backend/app/services/similarity.py. The external embedding model and
sklearn cosine_similarity are collaborators outside this repository: the
parameter sims is the vector of cosine-similarity values the external call
returns, one per source with non-empty content, each lying in the interval
from -1 to 1. An empty sims for a nonempty source list models the numpy
failure on an empty array, which the except branch of the source turns into
the _analyze_simple fallback. -/
def analyze_semantic (document_text : String) (sources : List SourceDoc)
    (sims : List ℚ) : SimilarityResult :=
  let source_texts := (sources.filter (fun s => s.content ≠ "")).map
    (fun s => s.content)
  if source_texts = [] then
    { plagiarism_score := 0, flagged_sections := 0,
      recommendations := ["No valid source content to compare"],
      total_matches := 0, sources_checked := 0 }
  else
    if sims = [] then analyze_simple document_text sources
    else
      let score := min (aggScore sims) 1
      let recs :=
        if (0.85 : ℚ) < score then
          ["⚠️ High similarity detected (" ++ fmtPct score ++ "%) - Review content carefully"]
        else if (0.7 : ℚ) < score then
          ["📋 Moderate similarity (" ++ fmtPct score ++ "%) - Consider paraphrasing"]
        else ["✓ Low plagiarism risk"]
      { plagiarism_score := score,
        flagged_sections := (sims.filter (fun s => (0.75 : ℚ) < s)).length,
        recommendations := recs,
        total_matches := (sims.filter (fun s => (0.5 : ℚ) < s)).length,
        sources_checked := sources.length }

/-- The degenerate-input result of analyze_document (empty document or empty
sources list). -/
def degenResult (sources : List SourceDoc) : SimilarityResult :=
  { plagiarism_score := 0, flagged_sections := 0,
    recommendations :=
      [if sources = [] then "No sources to compare against" else "Empty text provided"],
    total_matches := 0, sources_checked := sources.length }

/-- SimilarityService.analyze_document, lines 40-79 of
src/backend/app/services/similarity.py, with the inner try block abstracted:
strategy is the outcome of running the selected analysis strategy, Except.error
modelling a raised exception. The except branch of the source catches every
exception and returns a fresh dict with plagiarism_score 0.0 and the exception
text as the single recommendation. -/
def analyze_document_try (document_text : String) (sources : List SourceDoc)
    (strategy : Except String SimilarityResult) : SimilarityResult :=
  if document_text = "" ∨ sources = [] then degenResult sources
  else
    match strategy with
    | Except.ok r => r
    | Except.error e =>
        { plagiarism_score := 0, flagged_sections := 0,
          recommendations := [e], total_matches := 0,
          sources_checked := sources.length }

/-- SimilarityService.analyze_document on the non-raising path: picks the
semantic strategy when the model is loaded, the lexical fallback otherwise. -/
def analyze_document (modelLoaded : Bool) (document_text : String)
    (sources : List SourceDoc) (sims : List ℚ) : SimilarityResult :=
  analyze_document_try document_text sources
    (Except.ok
      (if modelLoaded then analyze_semantic document_text sources sims
       else analyze_simple document_text sources))

/-- Cosine similarity of one-dimensional vectors, where the Euclidean norm is
the absolute value and the result is exactly rational; used to exhibit concrete
embedding vectors realising a given similarity value. -/
def cosineSim1 (x y : ℚ) : ℚ := (x * y) / (|x| * |y|)

/-- A generated citation: the dict with keys full and in_text returned by
generate_citation in both citation modules. -/
structure CitationResult where
  full : String
  in_text : String
deriving DecidableEq, Repr

/-- Python expression (year or "n.d."): year is falsy when None or 0. -/
def yearOr (y : Option Int) (d : String) : String :=
  match y with
  | some n => if n = 0 then d else toString n
  | none => d

/-- The first n characters of a string (Python s[:n], and s[0] for n = 1 on a
nonempty string), written structurally so the kernel can evaluate it. -/
def strTake (s : String) (n : ℕ) : String := String.mk (s.data.take n)

/-- Python author_str.split(",")[0]: the prefix of a string before its first
comma (the whole string when no comma occurs). -/
def beforeComma (s : String) : String :=
  String.mk (s.data.takeWhile (fun c => c ≠ ','))

/-- CitationGenerator._format_authors_apa, identical in both citation modules:
each author First [Middle] Last becomes Last, F.M.; one author as is, two
joined with ", & ", three or more comma-separated with ", & " before the last;
at most 20 authors are formatted. -/
def format_authors_apa (authors : List String) : String :=
  if authors = [] then ""
  else
    let formatted := (authors.take 20).map (fun author =>
      let parts := pysplit author
      if 2 ≤ parts.length then
        parts.getLastD "" ++ ", " ++
          String.join ((parts.dropLast).map (fun p => strTake p 1 ++ "."))
      else author)
    if authors.length = 1 then formatted.headD ""
    else if authors.length = 2 then
      formatted.headD "" ++ ", & " ++ (formatted.drop 1).headD ""
    else
      String.intercalate ", " formatted.dropLast ++ ", & " ++ formatted.getLastD ""

/-- Inversion of a single author name used by _format_authors_mla:
First [Middle] Last becomes Last, First [Middle] when the name has at least
two tokens, and is kept as is otherwise. -/
def mlaInvert (author : String) : String :=
  let parts := pysplit author
  if 2 ≤ parts.length then
    parts.getLastD "" ++ ", " ++ String.intercalate " " parts.dropLast
  else author

/-- CitationGenerator._format_authors_mla, identical in both citation modules. -/
def format_authors_mla (authors : List String) : String :=
  match authors with
  | [] => ""
  | [a] => mlaInvert a
  | [a, b] => mlaInvert a ++ ", and " ++ b
  | a :: _ => mlaInvert a ++ ", et al."

end CiteGuard

namespace CiteGuard.Backend

/-- Metadata dict consumed by the backend citation service
(src/backend/app/services/citation.py); fields are read with dict.get and the
defaults shown. The backend generators read no other fields. -/
structure BMeta where
  title : String := ""
  authors : List String := []
  year : Option Int := none
  publication_name : String := ""
  url : String := ""
deriving DecidableEq, Repr

/-- Backend CitationGenerator._generate_apa. -/
def generate_apa (m : BMeta) : CitationResult :=
  let author_str := if m.authors = [] then "Unknown" else format_authors_apa m.authors
  let y := yearOr m.year "n.d."
  let full0 := author_str ++ " (" ++ y ++ "). " ++ m.title ++ ". " ++
    m.publication_name ++ "."
  let full := if m.url = "" then full0 else full0 ++ " Retrieved from " ++ m.url
  let in_text :=
    if m.authors = [] then "Unknown"
    else "(" ++ beforeComma author_str ++ " " ++ y ++ ")"
  { full := full, in_text := in_text }

/-- Backend CitationGenerator._generate_mla. -/
def generate_mla (m : BMeta) : CitationResult :=
  let author_str := if m.authors = [] then "Unknown" else format_authors_mla m.authors
  let full := author_str ++ ". \"" ++ m.title ++ ".\" " ++ m.publication_name ++
    ", " ++ yearOr m.year "n.d." ++ "."
  let in_text :=
    "(" ++ (if author_str.data.contains ',' then beforeComma author_str else author_str) ++ ")"
  { full := full, in_text := in_text }

/-- Backend CitationGenerator._generate_chicago. -/
def generate_chicago (m : BMeta) : CitationResult :=
  let author_str := if m.authors = [] then "Unknown" else String.intercalate ", " m.authors
  let y := yearOr m.year "n.d."
  let full := author_str ++ ". \"" ++ m.title ++ ".\" " ++ m.publication_name ++
    " (" ++ y ++ ")."
  let in_text := "(" ++ beforeComma author_str ++ " " ++ y ++ ")"
  { full := full, in_text := in_text }

/-- Backend CitationGenerator._generate_harvard. Note the year placeholder in
the full citation is the literal "n.d.d" in the source, while the in-text
placeholder is "n.d.". -/
def generate_harvard (m : BMeta) : CitationResult :=
  let author_str := if m.authors = [] then "Unknown" else String.intercalate ", " m.authors
  let full := author_str ++ ", " ++ yearOr m.year "n.d.d" ++ ". " ++ m.title ++
    ". " ++ m.publication_name ++ "."
  let in_text := "(" ++ beforeComma author_str ++ " " ++ yearOr m.year "n.d." ++ ")"
  { full := full, in_text := in_text }

/-- Backend CitationGenerator._generate_ieee: the author names are joined with
", " unmodified (no initials, no six-author cap, no et al.). -/
def generate_ieee (m : BMeta) : CitationResult :=
  let author_str := if m.authors = [] then "Unknown" else String.intercalate ", " m.authors
  let full := "[1] " ++ author_str ++ ", \"" ++ m.title ++ ",\" " ++
    m.publication_name ++ ", " ++ yearOr m.year "n.d." ++ "."
  { full := full, in_text := "[1]" }

/-- Backend CitationGenerator.generate_citation: dispatch on the style value
(CitationStyle is a str enum, so comparison is string comparison); every value
outside the five supported styles falls through to the APA branch. -/
def generate_citation (m : BMeta) (style : String) : CitationResult :=
  if style = "APA" then generate_apa m
  else if style = "MLA" then generate_mla m
  else if style = "Chicago" then generate_chicago m
  else if style = "Harvard" then generate_harvard m
  else if style = "IEEE" then generate_ieee m
  else generate_apa m

end CiteGuard.Backend


namespace CiteGuard.RootCit

/-- SourceMetadata dataclass of src/Citation.py: optional fields are Python
Optionals, tested for truthiness (None and the empty string are falsy). -/
structure RMeta where
  title : String
  authors : List String
  year : Option Int := none
  publication_name : Option String := none
  volume : Option String := none
  issue : Option String := none
  pages : Option String := none
  url : Option String := none
  doi : Option String := none
  access_date : Option String := none
  source_type : String := "article"
deriving DecidableEq, Repr

/-- Python pattern: if opt is truthy, append f(opt) to the string being built,
else append nothing. -/
def addIf (o : Option String) (f : String → String) : String :=
  match o with
  | none => ""
  | some s => if s = "" then "" else f s

/-- Same append pattern for the optional integer year (0 is falsy). -/
def addIfYear (y : Option Int) (f : String → String) : String :=
  match y with
  | none => ""
  | some n => if n = 0 then "" else f (toString n)

/-- Python expression (opt or default) for an optional string. -/
def optStr (o : Option String) (d : String) : String :=
  match o with
  | none => d
  | some s => if s = "" then d else s

/-- Python name.split()[-1]: the last whitespace token of a name; raises
IndexError when the name has no tokens. -/
def lastTok (s : String) : Except String String :=
  match (pysplit s).getLast? with
  | none => Except.error "IndexError: list index out of range"
  | some t => Except.ok t

/-- Root CitationGenerator._generate_apa (src/Citation.py). The in-text
citation is computed first, as in the source, so an IndexError raised there
(empty author list reaching m.authors[0], or an author with no tokens)
propagates before the full citation is assembled. -/
def generate_apa (m : RMeta) : Except String CitationResult := do
  let authors := format_authors_apa m.authors
  let y := yearOr m.year "n.d."
  let in_text ←
    if m.authors.length = 1 then do
      let t ← lastTok (m.authors.headD "")
      pure ("(" ++ t ++ ", " ++ y ++ ")")
    else if m.authors.length = 2 then do
      let t1 ← lastTok (m.authors.headD "")
      let t2 ← lastTok ((m.authors.drop 1).headD "")
      pure ("(" ++ t1 ++ " & " ++ t2 ++ ", " ++ y ++ ")")
    else
      match m.authors.head? with
      | none => Except.error "IndexError: list index out of range"
      | some a => do
          let t ← lastTok a
          pure ("(" ++ t ++ " et al., " ++ y ++ ")")
  let full :=
    if m.source_type = "article" then
      authors ++ " (" ++ y ++ "). " ++ m.title ++ ". " ++
        addIf m.publication_name (fun p => "*" ++ p ++ "*") ++
        addIf m.volume (fun v => ", *" ++ v ++ "*") ++
        addIf m.issue (fun i => "(" ++ i ++ ")") ++
        addIf m.pages (fun p => ", " ++ p) ++
        "." ++
        addIf m.doi (fun d => " https://doi.org/" ++ d)
    else if m.source_type = "book" then
      authors ++ " (" ++ y ++ "). *" ++ m.title ++ "*. " ++
        optStr m.publication_name "Publisher" ++ "."
    else if m.source_type = "website" then
      authors ++ " (" ++ y ++ "). *" ++ m.title ++ "*. " ++
        optStr m.publication_name "Website name" ++ ". " ++
        addIf m.url (fun u => u)
    else
      authors ++ " (" ++ y ++ "). " ++ m.title ++ "."
  pure { full := full, in_text := in_text }

/-- Root CitationGenerator._generate_mla (src/Citation.py). -/
def generate_mla (m : RMeta) : Except String CitationResult := do
  let authors := format_authors_mla m.authors
  let in_text ←
    match m.authors.head? with
    | some a => do
        let t ← lastTok a
        pure ("(" ++ t ++ addIf m.pages (fun p => " " ++ p) ++ ")")
    | none => pure ("(\"" ++ strTake m.title 20 ++ "...\")")
  let base := (if authors = "" then "" else authors ++ ". ") ++
    "\"" ++ m.title ++ ".\" "
  let full :=
    if m.source_type = "article" then
      base ++ addIf m.publication_name (fun p => "*" ++ p ++ "*, ") ++
        addIf m.volume (fun v => "vol. " ++ v ++ ", ") ++
        addIf m.issue (fun i => "no. " ++ i ++ ", ") ++
        addIfYear m.year (fun y => y ++ ", ") ++
        addIf m.pages (fun p => "pp. " ++ p ++ ".")
    else if m.source_type = "book" then
      base ++ "*" ++ optStr m.publication_name "Publisher" ++ "*, " ++
        yearOr m.year "n.d." ++ "."
    else if m.source_type = "website" then
      base ++ addIf m.publication_name (fun p => "*" ++ p ++ "*, ") ++
        addIfYear m.year (fun y => y ++ ", ") ++
        addIf m.url (fun u => u)
    else base
  pure { full := full, in_text := in_text }

/-- Root CitationGenerator._generate_chicago (src/Citation.py). -/
def generate_chicago (m : RMeta) : Except String CitationResult := do
  let authors := format_authors_apa m.authors
  let in_text ←
    match m.authors.head? with
    | some a => do
        let t ← lastTok a
        pure ("(" ++ t ++ " " ++ yearOr m.year "n.d." ++ ")")
    | none => pure ("(Source " ++ yearOr m.year "n.d." ++ ")")
  let full := authors ++ ". " ++
    addIfYear m.year (fun y => y ++ ". ") ++
    "\"" ++ m.title ++ ".\" " ++
    addIf m.publication_name (fun p => "*" ++ p ++ "* ") ++
    addIf m.volume (fun v => v ++ " ") ++
    addIf m.issue (fun i => "(" ++ i ++ ")") ++
    addIf m.pages (fun p => ": " ++ p) ++
    "."
  pure { full := full, in_text := in_text }

/-- Root CitationGenerator._generate_harvard delegates to _generate_apa. -/
def generate_harvard (m : RMeta) : Except String CitationResult :=
  generate_apa m

/-- One author of the root IEEE style: every token except the last becomes a
single initial followed by a period, the last token is kept whole, all joined
with single spaces; a name with no tokens raises IndexError. -/
def ieeeRenderAuthor (author : String) : Except String String :=
  match (pysplit author).getLast? with
  | none => Except.error "IndexError: list index out of range"
  | some last =>
      Except.ok (String.intercalate " "
        (((pysplit author).dropLast).map (fun p => strTake p 1 ++ ".") ++ [last]))

/-- The author string assembled by the root _generate_ieee: the first six
authors rendered and joined with ", ", then ", et al." appended when the list
holds more than six authors. -/
def ieeeAuthorsStr (authors : List String) : Except String String := do
  let rendered ← (authors.take 6).mapM ieeeRenderAuthor
  let s := String.intercalate ", " rendered
  pure (if 6 < authors.length then s ++ ", et al." else s)

/-- Root CitationGenerator._generate_ieee (src/Citation.py). -/
def generate_ieee (m : RMeta) : Except String CitationResult := do
  let authors ← ieeeAuthorsStr m.authors
  let full := authors ++ ", " ++ "\"" ++ m.title ++ ",\" " ++
    addIf m.publication_name (fun p => "*" ++ p ++ "*, ") ++
    addIf m.volume (fun v => "vol. " ++ v ++ ", ") ++
    addIf m.issue (fun i => "no. " ++ i ++ ", ") ++
    addIf m.pages (fun p => "pp. " ++ p ++ ", ") ++
    addIfYear m.year (fun y => y ++ ".")
  pure { full := full, in_text := "[1]" }

/-- Root CitationGenerator.generate_citation: unlike the backend service, the
final else branch raises ValueError for any style value outside the five
supported ones. -/
def generate_citation (m : RMeta) (style : String) : Except String CitationResult :=
  if style = "APA" then generate_apa m
  else if style = "MLA" then generate_mla m
  else if style = "Chicago" then generate_chicago m
  else if style = "Harvard" then generate_harvard m
  else if style = "IEEE" then generate_ieee m
  else Except.error ("Unsupported citation style: " ++ style)

end CiteGuard.RootCit

namespace CiteGuard

/-- Specification-side per-source lexical similarity, phrased as in the spec:
the number of distinct lower-cased words shared between document and source,
divided by the number of distinct lower-cased document words. -/
def simSpec (doc source : String) : ℚ :=
  (((wordSet doc).filter (fun w => w ∈ wordSet source)).card : ℚ) /
    ((wordSet doc).card : ℚ)

/-- Specification-side list of per-source similarities: one per source with
non-empty content. -/
def lexSims (doc : String) (sources : List SourceDoc) : List ℚ :=
  (sources.filter (fun s => s.content ≠ "")).map (fun s => simSpec doc s.content)

/-- Specification-side aggregate score: the average of the maximum and the
arithmetic mean of the per-source similarities. -/
def scoreSpec (doc : String) (sources : List SourceDoc) : ℚ :=
  ((lexSims doc sources).max?.getD 0 +
    (lexSims doc sources).sum / ((lexSims doc sources).length : ℚ)) / 2

/-- Specification-side rendering of one IEEE author: surname kept whole, every
given-name token reduced to its initial followed by a period. -/
def ieeeAuthorSpecOne (a : String) : String :=
  match (pysplit a).reverse with
  | [] => ""
  | surname :: revGiven =>
      String.intercalate " "
        ((revGiven.reverse).map (fun g => strTake g 1 ++ ".") ++ [surname])

/-- Specification-side IEEE author string: the first six authors rendered and
joined with commas, with ", et al." appended exactly when more than six
authors are present. -/
def ieeeAuthorsSpec (authors : List String) : String :=
  String.intercalate ", " ((authors.take 6).map ieeeAuthorSpecOne) ++
    (if 6 < authors.length then ", et al." else "")

instance : DecidableEq (Except String CitationResult) := fun a b =>
  match a, b with
  | Except.ok x, Except.ok y =>
      if h : x = y then isTrue (by rw [h]) else isFalse (by simp [h])
  | Except.error x, Except.error y =>
      if h : x = y then isTrue (by rw [h]) else isFalse (by simp [h])
  | Except.ok _, Except.error _ => isFalse (by simp)
  | Except.error _, Except.ok _ => isFalse (by simp)

lemma simpleSim_eq_simSpec (doc c : String) :
    simpleSim (wordSet doc) c = simSpec doc c := by
  unfold simpleSim simSpec
  rw [Finset.filter_mem_eq_inter]
  split_ifs with h
  · rfl
  · have h0 : (wordSet doc).card = 0 := Nat.eq_zero_of_not_pos h
    simp [h0]

lemma simpleSim_nonneg (w : Finset String) (c : String) : 0 ≤ simpleSim w c := by
  unfold simpleSim
  split_ifs with h
  · positivity
  · simp

lemma simpleSim_le_one (w : Finset String) (c : String) : simpleSim w c ≤ 1 := by
  unfold simpleSim
  split_ifs with h
  · rw [div_le_one (by exact_mod_cast h)]
    exact_mod_cast Finset.card_le_card (Finset.inter_subset_left)
  · norm_num

lemma le_foldl_max (l : List ℚ) (a : ℚ) : a ≤ l.foldl max a := by
  induction l generalizing a with
  | nil => simp
  | cons x xs ih =>
      rw [List.foldl_cons]
      exact le_trans (le_max_left a x) (ih (max a x))

lemma foldl_max_le (l : List ℚ) (a b : ℚ) (ha : a ≤ b)
    (hl : ∀ x ∈ l, x ≤ b) : l.foldl max a ≤ b := by
  induction l generalizing a with
  | nil => simpa using ha
  | cons x xs ih =>
      rw [List.foldl_cons]
      exact ih (max a x) (max_le ha (hl x (by simp)))
        (fun y hy => hl y (by simp [hy]))

lemma aggScore_nonneg (sims : List ℚ) (h : ∀ x ∈ sims, 0 ≤ x) :
    0 ≤ aggScore sims := by
  cases sims with
  | nil => simp [aggScore]
  | cons s0 rest =>
      have h0 : (0 : ℚ) ≤ s0 := h s0 (by simp)
      have hmx : (0 : ℚ) ≤ rest.foldl max s0 := le_trans h0 (le_foldl_max rest s0)
      have hsum : (0 : ℚ) ≤ (s0 :: rest).sum :=
        List.sum_nonneg h
      have havg : (0 : ℚ) ≤ (s0 :: rest).sum / (((s0 :: rest).length : ℚ)) :=
        div_nonneg hsum (by positivity)
      show (0 : ℚ) ≤ (rest.foldl max s0 + (s0 :: rest).sum / (((s0 :: rest).length : ℚ))) / 2
      positivity

lemma aggScore_le_one (sims : List ℚ) (h : ∀ x ∈ sims, x ≤ 1) :
    aggScore sims ≤ 1 := by
  cases sims with
  | nil => norm_num [aggScore]
  | cons s0 rest =>
      have hmx : rest.foldl max s0 ≤ 1 :=
        foldl_max_le rest s0 1 (h s0 (by simp)) (fun y hy => h y (by simp [hy]))
      have hsum : (s0 :: rest).sum ≤ ((s0 :: rest).length : ℚ) * 1 := by
        have := List.sum_le_card_nsmul (s0 :: rest) 1 (fun x hx => h x hx)
        simpa [nsmul_eq_mul] using this
      have hlen : (0 : ℚ) < ((s0 :: rest).length : ℚ) := by
        exact_mod_cast Nat.succ_pos rest.length
      have havg : (s0 :: rest).sum / (((s0 :: rest).length : ℚ)) ≤ 1 := by
        rw [div_le_one hlen]
        simpa using hsum
      show (rest.foldl max s0 + (s0 :: rest).sum / (((s0 :: rest).length : ℚ))) / 2 ≤ 1
      linarith

lemma aggScore_eq_spec (l : List ℚ) (h : l ≠ []) :
    aggScore l = (l.max?.getD 0 + l.sum / (l.length : ℚ)) / 2 := by
  cases l with
  | nil => exact absurd rfl h
  | cons s0 rest => rfl

end CiteGuard

namespace CiteGuard

lemma analyze_simple_bounds (doc : String) (sources : List SourceDoc) :
    0 ≤ (analyze_simple doc sources).plagiarism_score ∧
    (analyze_simple doc sources).plagiarism_score ≤ 1 ∧
    (analyze_simple doc sources).sources_checked ≤ sources.length := by
  by_cases h1 : (wordSet doc).card = 0
  · simp only [analyze_simple]
    rw [if_pos h1]
    exact ⟨le_refl 0, by norm_num, Nat.zero_le _⟩
  · by_cases h2 : (sources.filter (fun s => s.content ≠ "")).map
        (fun s => simpleSim (wordSet doc) s.content) = []
    · simp only [analyze_simple]
      rw [if_neg h1, if_pos h2]
      exact ⟨le_refl 0, by norm_num, Nat.zero_le _⟩
    · simp only [analyze_simple]
      rw [if_neg h1, if_neg h2]
      refine ⟨?_, ?_, le_refl _⟩
      · exact aggScore_nonneg _ (by
          intro x hx
          obtain ⟨s, _, rfl⟩ := List.mem_map.mp hx
          exact simpleSim_nonneg _ _)
      · exact aggScore_le_one _ (by
          intro x hx
          obtain ⟨s, _, rfl⟩ := List.mem_map.mp hx
          exact simpleSim_le_one _ _)

lemma analyze_semantic_le_one (doc : String) (sources : List SourceDoc)
    (sims : List ℚ) :
    (analyze_semantic doc sources sims).plagiarism_score ≤ 1 ∧
    (analyze_semantic doc sources sims).sources_checked ≤ sources.length := by
  by_cases h1 : (sources.filter (fun s => s.content ≠ "")).map
      (fun s => s.content) = []
  · simp only [analyze_semantic]
    rw [if_pos h1]
    exact ⟨by norm_num, Nat.zero_le _⟩
  · by_cases h2 : sims = []
    · simp only [analyze_semantic]
      rw [if_neg h1, if_pos h2]
      exact ⟨(analyze_simple_bounds doc sources).2.1,
        (analyze_simple_bounds doc sources).2.2⟩
    · simp only [analyze_semantic]
      rw [if_neg h1, if_neg h2]
      exact ⟨min_le_right _ _, le_refl _⟩

lemma analyze_semantic_nonneg (doc : String) (sources : List SourceDoc)
    (sims : List ℚ) (hsims : ∀ x ∈ sims, 0 ≤ x) :
    0 ≤ (analyze_semantic doc sources sims).plagiarism_score := by
  by_cases h1 : (sources.filter (fun s => s.content ≠ "")).map
      (fun s => s.content) = []
  · simp only [analyze_semantic]
    rw [if_pos h1]
  · by_cases h2 : sims = []
    · simp only [analyze_semantic]
      rw [if_neg h1, if_pos h2]
      exact (analyze_simple_bounds doc sources).1
    · simp only [analyze_semantic]
      rw [if_neg h1, if_neg h2]
      exact le_min (aggScore_nonneg _ hsims) zero_le_one

end CiteGuard

namespace CiteGuard

/-- Claim C1 (amended): when the selected analysis strategy raises an
unexpected error e, analyze_document does not propagate it; it returns an
ordinary result dict with plagiarism_score 0.0, no flags or matches,
sources_checked equal to the full source count, and the error text as the
single recommendation. -/
theorem c1_errors_swallowed (doc : String) (sources : List SourceDoc) (e : String)
    (h1 : doc ≠ "") (h2 : sources ≠ []) :
    analyze_document_try doc sources (Except.error e) =
      { plagiarism_score := 0, flagged_sections := 0, recommendations := [e],
        total_matches := 0, sources_checked := sources.length } := by
  unfold analyze_document_try
  rw [if_neg (by simp [h1, h2])]

/-- Witness for C1 at a concrete input. -/
theorem c1_errors_swallowed_witness :
    analyze_document_try "Some document text" [{ title := "S", content := "c" }]
      (Except.error "RuntimeError: boom") =
      { plagiarism_score := 0, flagged_sections := 0,
        recommendations := ["RuntimeError: boom"], total_matches := 0,
        sources_checked := 1 } :=
  c1_errors_swallowed "Some document text" [{ title := "S", content := "c" }]
    "RuntimeError: boom" (by decide) (by decide)

/-- Counterexample to C1 as stated: at this concrete input an unexpected
internal error is converted into a returned result with score 0.0 instead of
propagating. -/
theorem c1_counterexample :
    analyze_document_try "An essay about cats" [{ title := "S", content := "c" }]
      (Except.error "RuntimeError: model crashed") =
      { plagiarism_score := 0, flagged_sections := 0,
        recommendations := ["RuntimeError: model crashed"], total_matches := 0,
        sources_checked := 1 } := by
  decide

/-- Claim C2 (amended): for every document, source list, model state and
vector of externally computed cosine similarities, the returned plagiarism
score is at most 1 and sources_checked never exceeds the number of sources,
unconditionally; the score is moreover at least 0 whenever the lexical
strategy runs (model absent), equal to 0 on the degenerate paths, and at
least 0 in the semantic strategy whenever every cosine similarity is
nonnegative (without that proviso it can drop below 0, see the
counterexample). -/
theorem c2_score_bounds (modelLoaded : Bool) (doc : String)
    (sources : List SourceDoc) (sims : List ℚ) :
    (analyze_document modelLoaded doc sources sims).plagiarism_score ≤ 1 ∧
    (analyze_document modelLoaded doc sources sims).sources_checked ≤ sources.length ∧
    0 ≤ (analyze_document false doc sources sims).plagiarism_score ∧
    ((doc = "" ∨ sources = []) →
      (analyze_document modelLoaded doc sources sims).plagiarism_score = 0) ∧
    ((∀ x ∈ sims, 0 ≤ x) →
      0 ≤ (analyze_document modelLoaded doc sources sims).plagiarism_score) := by
  unfold analyze_document analyze_document_try
  by_cases h1 : doc = "" ∨ sources = []
  · rw [if_pos h1]
    exact ⟨by norm_num [degenResult], le_refl _,
      by rw [if_pos h1]; exact le_refl 0,
      fun _ => rfl, fun _ => le_refl _⟩
  · rw [if_neg h1]
    refine ⟨?_, ?_, ?_, fun hdeg => absurd hdeg h1, ?_⟩
    · cases modelLoaded with
      | true => simpa using (analyze_semantic_le_one doc sources sims).1
      | false => simpa using (analyze_simple_bounds doc sources).2.1
    · cases modelLoaded with
      | true => simpa using (analyze_semantic_le_one doc sources sims).2
      | false => simpa using (analyze_simple_bounds doc sources).2.2
    · rw [if_neg h1]
      simpa using (analyze_simple_bounds doc sources).1
    · intro hsims
      cases modelLoaded with
      | true => simpa using analyze_semantic_nonneg doc sources sims hsims
      | false => simpa using (analyze_simple_bounds doc sources).1

/-- Witness for C2 at concrete inputs, discharging the degenerate-input and
nonnegative-similarity hypotheses of the two conditional conjuncts. -/
theorem c2_score_bounds_witness :
    (analyze_document true "the cat" [{ title := "S", content := "the dog" }]
        [(1 : ℚ)/2]).plagiarism_score ≤ 1 ∧
    (analyze_document true "the cat" [{ title := "S", content := "the dog" }]
        [(1 : ℚ)/2]).sources_checked ≤
      ([{ title := "S", content := "the dog" }] : List SourceDoc).length ∧
    0 ≤ (analyze_document false "the cat" [{ title := "S", content := "the dog" }]
        [(1 : ℚ)/2]).plagiarism_score ∧
    (analyze_document true "" [{ title := "S", content := "the dog" }]
        [(1 : ℚ)/2]).plagiarism_score = 0 ∧
    0 ≤ (analyze_document true "the cat" [{ title := "S", content := "the dog" }]
        [(1 : ℚ)/2]).plagiarism_score := by
  refine ⟨(c2_score_bounds true "the cat" [{ title := "S", content := "the dog" }]
      [(1 : ℚ)/2]).1,
    (c2_score_bounds true "the cat" [{ title := "S", content := "the dog" }]
      [(1 : ℚ)/2]).2.1,
    (c2_score_bounds false "the cat" [{ title := "S", content := "the dog" }]
      [(1 : ℚ)/2]).2.2.1,
    (c2_score_bounds true "" [{ title := "S", content := "the dog" }]
      [(1 : ℚ)/2]).2.2.2.1 (Or.inl rfl),
    (c2_score_bounds true "the cat" [{ title := "S", content := "the dog" }]
      [(1 : ℚ)/2]).2.2.2.2 (by
        intro x hx
        rw [List.mem_singleton] at hx
        subst hx
        norm_num)⟩

/-- Counterexample to C2 as stated: a cosine similarity of -1 (realised by
one-dimensional embedding vectors 1 and -1 for document and source) drives the
semantic score below 0, outside the claimed interval. -/
theorem c2_counterexample :
    cosineSim1 1 (-1) = -1 ∧
    (analyze_document true "a" [{ title := "t", content := "b" }]
        [cosineSim1 1 (-1)]).plagiarism_score = -1 ∧
    ((-1 : ℚ) < 0) := by
  have hcos : cosineSim1 1 (-1) = -1 := by norm_num [cosineSim1]
  refine ⟨hcos, ?_, by norm_num⟩
  rw [hcos]
  show (analyze_semantic "a" [{ title := "t", content := "b" }] [-1]).plagiarism_score = -1
  unfold analyze_semantic
  rw [if_neg (by decide), if_neg (by decide)]
  show min (aggScore [-1]) 1 = -1
  norm_num [aggScore, min_def]

end CiteGuard

namespace CiteGuard

lemma filter_content_idem (sources : List SourceDoc) :
    (sources.filter (fun s => s.content ≠ "")).filter (fun s => s.content ≠ "") =
      sources.filter (fun s => s.content ≠ "") := by
  rw [List.filter_filter]
  simp

/-- Claim C3 (amended): sources with empty content are skipped by the
similarity computation (running the lexical analysis on the full list and on
the list restricted to non-empty sources gives the same score, flag count and
match count), but sources_checked reports the length of the FULL input list,
empty-content entries included, in both strategies. -/
theorem c3_sources_checked (doc : String) (sources : List SourceDoc) (sims : List ℚ)
    (h1 : (wordSet doc).card ≠ 0)
    (h2 : sources.filter (fun s => s.content ≠ "") ≠ []) :
    (analyze_simple doc sources).sources_checked = sources.length ∧
    (analyze_semantic doc sources sims).sources_checked = sources.length ∧
    (analyze_simple doc sources).plagiarism_score =
      (analyze_simple doc (sources.filter (fun s => s.content ≠ ""))).plagiarism_score ∧
    (analyze_simple doc sources).flagged_sections =
      (analyze_simple doc (sources.filter (fun s => s.content ≠ ""))).flagged_sections ∧
    (analyze_simple doc sources).total_matches =
      (analyze_simple doc (sources.filter (fun s => s.content ≠ ""))).total_matches := by
  have hsims : (sources.filter (fun s => s.content ≠ "")).map
      (fun s => simpleSim (wordSet doc) s.content) ≠ [] := by
    simpa using h2
  have hopen : ∀ srcs : List SourceDoc,
      srcs.filter (fun s => s.content ≠ "") = sources.filter (fun s => s.content ≠ "") →
      (analyze_simple doc srcs).plagiarism_score =
        aggScore ((sources.filter (fun s => s.content ≠ "")).map
          (fun s => simpleSim (wordSet doc) s.content)) ∧
      (analyze_simple doc srcs).flagged_sections =
        (((sources.filter (fun s => s.content ≠ "")).map
          (fun s => simpleSim (wordSet doc) s.content)).filter
            (fun s => (0.3 : ℚ) < s)).length ∧
      (analyze_simple doc srcs).total_matches =
        (((sources.filter (fun s => s.content ≠ "")).map
          (fun s => simpleSim (wordSet doc) s.content)).filter
            (fun s => (0.15 : ℚ) < s)).length ∧
      (analyze_simple doc srcs).sources_checked = srcs.length := by
    intro srcs hf
    simp only [analyze_simple, hf]
    rw [if_neg h1, if_neg hsims]
    exact ⟨rfl, rfl, rfl, rfl⟩
  have ha := hopen sources rfl
  have hb := hopen (sources.filter (fun s => s.content ≠ ""))
    (filter_content_idem sources)
  refine ⟨ha.2.2.2, ?_, ?_, ?_, ?_⟩
  · simp only [analyze_semantic]
    rw [if_neg (by simpa using h2)]
    by_cases hs : sims = []
    · rw [if_pos hs]
      exact ha.2.2.2
    · rw [if_neg hs]
  · rw [ha.1, hb.1]
  · rw [ha.2.1, hb.2.1]
  · rw [ha.2.2.1, hb.2.2.1]

/-- Witness for C3 at a concrete input. -/
theorem c3_sources_checked_witness :
    (analyze_simple "x y" [{ title := "A", content := "x q" }, { title := "B", content := "" }]).sources_checked = 2 ∧
    (analyze_semantic "x y" [{ title := "A", content := "x q" }, { title := "B", content := "" }] [(1 : ℚ)/4]).sources_checked = 2 ∧
    (analyze_simple "x y" [{ title := "A", content := "x q" }, { title := "B", content := "" }]).plagiarism_score =
      (analyze_simple "x y" ([{ title := "A", content := "x q" }, { title := "B", content := "" }].filter (fun s => s.content ≠ ""))).plagiarism_score ∧
    (analyze_simple "x y" [{ title := "A", content := "x q" }, { title := "B", content := "" }]).flagged_sections =
      (analyze_simple "x y" ([{ title := "A", content := "x q" }, { title := "B", content := "" }].filter (fun s => s.content ≠ ""))).flagged_sections ∧
    (analyze_simple "x y" [{ title := "A", content := "x q" }, { title := "B", content := "" }]).total_matches =
      (analyze_simple "x y" ([{ title := "A", content := "x q" }, { title := "B", content := "" }].filter (fun s => s.content ≠ ""))).total_matches := by
  have h := c3_sources_checked "x y"
    [{ title := "A", content := "x q" }, { title := "B", content := "" }]
    [(1 : ℚ)/4] (by decide) (by decide)
  simpa using h

/-- Counterexample to C3 as stated: with one non-empty and one empty source,
sources_checked is 2, the full list length, not 1, the number of sources with
non-empty content. -/
theorem c3_counterexample :
    (analyze_simple "x y" [{ title := "A", content := "x q" },
        { title := "B", content := "" }]).sources_checked = 2 ∧
    (([{ title := "A", content := "x q" }, { title := "B", content := "" }] :
        List SourceDoc).filter (fun s => s.content ≠ "")).length = 1 ∧
    (2 : ℕ) ≠ 1 := by
  refine ⟨?_, by decide, by decide⟩
  simp only [analyze_simple]
  rw [if_neg (by decide), if_neg (by decide)]
  rfl

end CiteGuard

namespace CiteGuard

lemma analyze_simple_open (doc : String) (sources : List SourceDoc)
    (h1 : (wordSet doc).card ≠ 0)
    (h2 : (sources.filter (fun s => s.content ≠ "")).map
      (fun s => simpleSim (wordSet doc) s.content) ≠ []) :
    (analyze_simple doc sources).plagiarism_score =
      aggScore ((sources.filter (fun s => s.content ≠ "")).map
        (fun s => simpleSim (wordSet doc) s.content)) ∧
    (analyze_simple doc sources).flagged_sections =
      (((sources.filter (fun s => s.content ≠ "")).map
        (fun s => simpleSim (wordSet doc) s.content)).filter
          (fun s => (0.3 : ℚ) < s)).length ∧
    (analyze_simple doc sources).total_matches =
      (((sources.filter (fun s => s.content ≠ "")).map
        (fun s => simpleSim (wordSet doc) s.content)).filter
          (fun s => (0.15 : ℚ) < s)).length ∧
    (analyze_simple doc sources).sources_checked = sources.length := by
  simp only [analyze_simple]
  rw [if_neg h1, if_neg h2]
  exact ⟨rfl, rfl, rfl, rfl⟩

lemma map_simpleSim_eq_lexSims (doc : String) (sources : List SourceDoc) :
    (sources.filter (fun s => s.content ≠ "")).map
      (fun s => simpleSim (wordSet doc) s.content) = lexSims doc sources := by
  unfold lexSims
  exact List.map_congr_left (fun s _ => simpleSim_eq_simSpec doc s.content)

/-- Claim C4: in the lexical fallback, the per-source similarity is the number
of distinct shared lower-cased words over the number of distinct document
words, and the aggregate score is the average of the maximum and the mean of
the per-source similarities; in particular, document "the cat sat" against the
single source "the cat sat on the mat" scores 1.0 with one flagged source and
one match. -/
theorem c4_lexical_formula :
    (∀ (doc content : String), simpleSim (wordSet doc) content = simSpec doc content) ∧
    (∀ (doc : String) (sources : List SourceDoc),
      (wordSet doc).card ≠ 0 →
      lexSims doc sources ≠ [] →
      (analyze_simple doc sources).plagiarism_score = scoreSpec doc sources) ∧
    simSpec "the cat sat" "the cat sat on the mat" = 1 ∧
    (analyze_simple "the cat sat"
      [{ title := "S", content := "the cat sat on the mat" }]).plagiarism_score = 1 ∧
    (analyze_simple "the cat sat"
      [{ title := "S", content := "the cat sat on the mat" }]).flagged_sections = 1 ∧
    (analyze_simple "the cat sat"
      [{ title := "S", content := "the cat sat on the mat" }]).total_matches = 1 := by
  have hgen : ∀ (doc : String) (sources : List SourceDoc),
      (wordSet doc).card ≠ 0 → lexSims doc sources ≠ [] →
      (analyze_simple doc sources).plagiarism_score = scoreSpec doc sources := by
    intro doc sources h1 h2
    have h2' : (sources.filter (fun s => s.content ≠ "")).map
        (fun s => simpleSim (wordSet doc) s.content) ≠ [] := by
      rw [map_simpleSim_eq_lexSims]
      exact h2
    rw [(analyze_simple_open doc sources h1 h2').1, map_simpleSim_eq_lexSims,
      aggScore_eq_spec _ h2]
    rfl
  have hsim1 : simpleSim (wordSet "the cat sat") "the cat sat on the mat" = 1 := by
    simp only [simpleSim]
    rw [if_pos (by decide)]
    rw [show ((wordSet "the cat sat") ∩ wordSet "the cat sat on the mat").card = 3
      from by decide]
    rw [show (wordSet "the cat sat").card = 3 from by decide]
    norm_num
  have hspec1 : simSpec "the cat sat" "the cat sat on the mat" = 1 := by
    rw [← simpleSim_eq_simSpec]
    exact hsim1
  have hopen := analyze_simple_open "the cat sat"
    [{ title := "S", content := "the cat sat on the mat" }] (by decide) (by decide)
  have hlist : (([{ title := "S", content := "the cat sat on the mat" }] :
      List SourceDoc).filter (fun s => s.content ≠ "")).map
        (fun s => simpleSim (wordSet "the cat sat") s.content) =
      [simpleSim (wordSet "the cat sat") "the cat sat on the mat"] := rfl
  refine ⟨fun doc content => simpleSim_eq_simSpec doc content, hgen, hspec1, ?_, ?_, ?_⟩
  · rw [hopen.1, hlist, hsim1]
    norm_num [aggScore]
  · rw [hopen.2.1, hlist, hsim1]
    norm_num [List.filter]
  · rw [hopen.2.2.1, hlist, hsim1]
    norm_num [List.filter]

/-- Witness for C4 at a concrete input. -/
theorem c4_lexical_formula_witness :
    (analyze_simple "the cat sat"
      [{ title := "S", content := "the cat sat on the mat" }]).plagiarism_score =
      scoreSpec "the cat sat" [{ title := "S", content := "the cat sat on the mat" }] :=
  c4_lexical_formula.2.1 "the cat sat"
    [{ title := "S", content := "the cat sat on the mat" }] (by decide) (by decide)

end CiteGuard

namespace CiteGuard

/-- Claim C5: the lexical strategy flags exactly the sources whose similarity
strictly exceeds 0.3 and counts as matches exactly those strictly above 0.15;
a document of ten unique words sharing exactly three with a single source sits
on the 0.3 boundary and is NOT flagged, while it still counts as a match. -/
theorem c5_thresholds :
    (∀ (doc : String) (sources : List SourceDoc),
      (wordSet doc).card ≠ 0 →
      (analyze_simple doc sources).flagged_sections =
        (lexSims doc sources).countP (fun s => (3 : ℚ)/10 < s) ∧
      (analyze_simple doc sources).total_matches =
        (lexSims doc sources).countP (fun s => (3 : ℚ)/20 < s)) ∧
    simSpec "a b c d e f g h i j" "a b c k" = 3/10 ∧
    (analyze_simple "a b c d e f g h i j"
      [{ title := "S", content := "a b c k" }]).flagged_sections = 0 ∧
    (analyze_simple "a b c d e f g h i j"
      [{ title := "S", content := "a b c k" }]).total_matches = 1 := by
  have hgen : ∀ (doc : String) (sources : List SourceDoc),
      (wordSet doc).card ≠ 0 →
      (analyze_simple doc sources).flagged_sections =
        (lexSims doc sources).countP (fun s => (3 : ℚ)/10 < s) ∧
      (analyze_simple doc sources).total_matches =
        (lexSims doc sources).countP (fun s => (3 : ℚ)/20 < s) := by
    intro doc sources h1
    by_cases h2 : lexSims doc sources = []
    · have h2' : (sources.filter (fun s => s.content ≠ "")).map
          (fun s => simpleSim (wordSet doc) s.content) = [] := by
        rw [map_simpleSim_eq_lexSims]
        exact h2
      constructor <;>
        · simp only [analyze_simple]
          rw [if_neg h1, if_pos h2']
          simp [h2]
    · have h2' : (sources.filter (fun s => s.content ≠ "")).map
          (fun s => simpleSim (wordSet doc) s.content) ≠ [] := by
        rw [map_simpleSim_eq_lexSims]
        exact h2
      have hopen := analyze_simple_open doc sources h1 h2'
      constructor
      · rw [hopen.2.1, map_simpleSim_eq_lexSims, List.countP_eq_length_filter]
        have h03 : (0.3 : ℚ) = 3/10 := by norm_num
        simp only [h03]
      · rw [hopen.2.2.1, map_simpleSim_eq_lexSims, List.countP_eq_length_filter]
        have h015 : (0.15 : ℚ) = 3/20 := by norm_num
        simp only [h015]
  have hsim1 : simpleSim (wordSet "a b c d e f g h i j") "a b c k" = 3/10 := by
    simp only [simpleSim]
    rw [if_pos (by decide)]
    rw [show ((wordSet "a b c d e f g h i j") ∩ wordSet "a b c k").card = 3
      from by decide]
    rw [show (wordSet "a b c d e f g h i j").card = 10 from by decide]
    norm_num
  have hspec1 : simSpec "a b c d e f g h i j" "a b c k" = 3/10 := by
    rw [← simpleSim_eq_simSpec]
    exact hsim1
  have hopen := analyze_simple_open "a b c d e f g h i j"
    [{ title := "S", content := "a b c k" }] (by decide) (by decide)
  have hlist : (([{ title := "S", content := "a b c k" }] :
      List SourceDoc).filter (fun s => s.content ≠ "")).map
        (fun s => simpleSim (wordSet "a b c d e f g h i j") s.content) =
      [simpleSim (wordSet "a b c d e f g h i j") "a b c k"] := rfl
  refine ⟨hgen, hspec1, ?_, ?_⟩
  · rw [hopen.2.1, hlist, hsim1]
    norm_num [List.filter]
  · rw [hopen.2.2.1, hlist, hsim1]
    norm_num [List.filter]

/-- Witness for C5 at a concrete input. -/
theorem c5_thresholds_witness :
    (analyze_simple "a b c d e f g h i j"
      [{ title := "S", content := "a b c k" }]).flagged_sections =
      (lexSims "a b c d e f g h i j" [{ title := "S", content := "a b c k" }]).countP
        (fun s => (3 : ℚ)/10 < s) ∧
    (analyze_simple "a b c d e f g h i j"
      [{ title := "S", content := "a b c k" }]).total_matches =
      (lexSims "a b c d e f g h i j" [{ title := "S", content := "a b c k" }]).countP
        (fun s => (3 : ℚ)/20 < s) :=
  c5_thresholds.1 "a b c d e f g h i j" [{ title := "S", content := "a b c k" }]
    (by decide)

end CiteGuard

namespace CiteGuard

/-- Claim C6 (amended): the backend service formatter resolves every style
value outside the five supported styles to the APA result without error; the
standalone formatter in src/Citation.py instead rejects such a style value
with a ValueError. -/
theorem c6_unknown_style (m : Backend.BMeta) (style : String)
    (h : style ∉ (["APA", "MLA", "Chicago", "Harvard", "IEEE"] : List String)) :
    Backend.generate_citation m style = Backend.generate_citation m "APA" ∧
    (∀ rm : RootCit.RMeta, RootCit.generate_citation rm style =
      Except.error ("Unsupported citation style: " ++ style)) := by
  simp only [List.mem_cons, List.not_mem_nil, or_false, not_or] at h
  obtain ⟨h1, h2, h3, h4, h5⟩ := h
  constructor
  · unfold Backend.generate_citation
    rw [if_neg h1, if_neg h2, if_neg h3, if_neg h4, if_neg h5, if_pos rfl]
  · intro rm
    unfold RootCit.generate_citation
    rw [if_neg h1, if_neg h2, if_neg h3, if_neg h4, if_neg h5]

/-- Witness for C6 at a concrete style value. -/
theorem c6_unknown_style_witness :
    Backend.generate_citation { title := "T", authors := ["Jane Doe"] } "BibTeX" =
      Backend.generate_citation { title := "T", authors := ["Jane Doe"] } "APA" ∧
    (∀ rm : RootCit.RMeta, RootCit.generate_citation rm "BibTeX" =
      Except.error ("Unsupported citation style: " ++ "BibTeX")) :=
  c6_unknown_style { title := "T", authors := ["Jane Doe"] } "BibTeX" (by decide)

/-- Counterexample to C6 as stated: the src/Citation.py formatter raises for
an unknown style instead of returning the APA result. -/
theorem c6_counterexample :
    RootCit.generate_citation { title := "T", authors := ["Jane Doe"] } "BibTeX" =
      Except.error "Unsupported citation style: BibTeX" := by
  decide

/-- Claim C7: at the failing input (Harvard style, no year) the backend
formatter renders the year slot of the full citation as the literal "n.d.d",
not the "n.d." the specification prescribes; the in-text citation of the same
call does use "n.d.". -/
theorem c7_harvard_ndd :
    Backend.generate_harvard
        { title := "T", authors := ["Jane Doe"], publication_name := "J" } =
      { full := "Jane Doe, n.d.d. T. J.", in_text := "(Jane Doe n.d.)" } ∧
    ("n.d.d" : String) ≠ "n.d." := by
  exact ⟨by decide, by decide⟩

/-- Claim C8 (amended): for the single author Jane Doe, year 2024, article
type, title T and publication J, the standalone src/Citation.py APA formatter
produces exactly the claimed in-text citation "(Doe, 2024)" and a full
citation starting with "Doe, J. (2024). T. "; the backend service produces the
same full-citation prefix but renders the in-text citation as "(Doe 2024)",
without the comma. -/
theorem c8_apa_example :
    RootCit.generate_apa
        { title := "T", authors := ["Jane Doe"], year := some 2024,
          publication_name := some "J" } =
      Except.ok { full := "Doe, J. (2024). T. *J*.", in_text := "(Doe, 2024)" } ∧
    (∃ t, ("Doe, J. (2024). T. *J*." : String) = "Doe, J. (2024). T. " ++ t) ∧
    Backend.generate_apa
        { title := "T", authors := ["Jane Doe"], year := some 2024,
          publication_name := "J" } =
      { full := "Doe, J. (2024). T. J.", in_text := "(Doe 2024)" } ∧
    (∃ t, ("Doe, J. (2024). T. J." : String) = "Doe, J. (2024). T. " ++ t) := by
  exact ⟨by decide, ⟨"*J*.", by decide⟩, by decide, ⟨"J.", by decide⟩⟩

/-- Counterexample to C8 as stated: the backend APA in-text citation at the
given metadata is "(Doe 2024)", which differs from the claimed "(Doe, 2024)". -/
theorem c8_counterexample :
    (Backend.generate_apa
        { title := "T", authors := ["Jane Doe"], year := some 2024,
          publication_name := "J" }).in_text = "(Doe 2024)" ∧
    ("(Doe 2024)" : String) ≠ "(Doe, 2024)" := by
  exact ⟨by decide, by decide⟩

end CiteGuard

namespace CiteGuard

lemma ieeeRenderAuthor_ok (a : String) (h : pysplit a ≠ []) :
    RootCit.ieeeRenderAuthor a = Except.ok (ieeeAuthorSpecOne a) := by
  unfold RootCit.ieeeRenderAuthor ieeeAuthorSpecOne
  have hrev : (pysplit a).reverse =
      (pysplit a).getLast h :: (pysplit a).dropLast.reverse := by
    conv_lhs => rw [← List.dropLast_append_getLast h]
    rw [List.reverse_append]
    simp
  rw [List.getLast?_eq_getLast _ h, hrev]
  simp [List.reverse_reverse]

lemma mapM_ok_of_forall (l : List String) (f : String → Except String String)
    (g : String → String) (h : ∀ a ∈ l, f a = Except.ok (g a)) :
    l.mapM f = Except.ok (l.map g) := by
  induction l with
  | nil => rfl
  | cons a as ih =>
      rw [List.mapM_cons, h a (by simp), ih (fun x hx => h x (by simp [hx]))]
      rfl

lemma ieeeAuthorsStr_ok (authors : List String)
    (h : ∀ a ∈ authors, pysplit a ≠ []) :
    RootCit.ieeeAuthorsStr authors = Except.ok (ieeeAuthorsSpec authors) := by
  unfold RootCit.ieeeAuthorsStr ieeeAuthorsSpec
  rw [mapM_ok_of_forall (authors.take 6) RootCit.ieeeRenderAuthor ieeeAuthorSpecOne
    (fun a ha => ieeeRenderAuthor_ok a (h a (List.take_subset 6 authors ha)))]
  show Except.ok _ = _
  split_ifs with h6
  · rfl
  · simp

/-- Claim C9 (amended): the src/Citation.py IEEE formatter renders each author
as initials of all given-name tokens followed by the whole surname, joins the
rendered authors with commas, caps at the first six authors, and appends
", et al." exactly when more than six are present, and its full citation opens
with this author string; the backend service IEEE formatter instead joins the
unmodified author names, with no abbreviation, cap, or et-al marker. -/
theorem c9_ieee_authors (authors : List String) (h1 : authors ≠ [])
    (h2 : ∀ a ∈ authors, pysplit a ≠ []) :
    RootCit.ieeeAuthorsStr authors = Except.ok (ieeeAuthorsSpec authors) ∧
    (∀ rm : RootCit.RMeta, rm.authors = authors →
      RootCit.generate_ieee rm = Except.ok
        { full := ieeeAuthorsSpec authors ++ ", " ++ "\"" ++ rm.title ++ ",\" " ++
            RootCit.addIf rm.publication_name (fun p => "*" ++ p ++ "*, ") ++
            RootCit.addIf rm.volume (fun v => "vol. " ++ v ++ ", ") ++
            RootCit.addIf rm.issue (fun i => "no. " ++ i ++ ", ") ++
            RootCit.addIf rm.pages (fun p => "pp. " ++ p ++ ", ") ++
            RootCit.addIfYear rm.year (fun y => y ++ "."),
          in_text := "[1]" }) ∧
    (∀ bm : Backend.BMeta, bm.authors = authors →
      Backend.generate_ieee bm =
        { full := "[1] " ++ String.intercalate ", " authors ++ ", \"" ++ bm.title ++
            ",\" " ++ bm.publication_name ++ ", " ++ yearOr bm.year "n.d." ++ ".",
          in_text := "[1]" }) := by
  refine ⟨ieeeAuthorsStr_ok authors h2, ?_, ?_⟩
  · intro rm hrm
    unfold RootCit.generate_ieee
    rw [hrm, ieeeAuthorsStr_ok authors h2]
    rfl
  · intro bm hbm
    unfold Backend.generate_ieee
    rw [hbm, if_neg h1]

/-- Witness for C9 at a concrete author list. -/
theorem c9_ieee_authors_witness :
    RootCit.ieeeAuthorsStr ["Jane Ann Doe", "Al Bo"] =
      Except.ok (ieeeAuthorsSpec ["Jane Ann Doe", "Al Bo"]) ∧
    (∀ rm : RootCit.RMeta, rm.authors = ["Jane Ann Doe", "Al Bo"] →
      RootCit.generate_ieee rm = Except.ok
        { full := ieeeAuthorsSpec ["Jane Ann Doe", "Al Bo"] ++ ", " ++ "\"" ++
            rm.title ++ ",\" " ++
            RootCit.addIf rm.publication_name (fun p => "*" ++ p ++ "*, ") ++
            RootCit.addIf rm.volume (fun v => "vol. " ++ v ++ ", ") ++
            RootCit.addIf rm.issue (fun i => "no. " ++ i ++ ", ") ++
            RootCit.addIf rm.pages (fun p => "pp. " ++ p ++ ", ") ++
            RootCit.addIfYear rm.year (fun y => y ++ "."),
          in_text := "[1]" }) ∧
    (∀ bm : Backend.BMeta, bm.authors = ["Jane Ann Doe", "Al Bo"] →
      Backend.generate_ieee bm =
        { full := "[1] " ++ String.intercalate ", " ["Jane Ann Doe", "Al Bo"] ++
            ", \"" ++ bm.title ++ ",\" " ++ bm.publication_name ++ ", " ++
            yearOr bm.year "n.d." ++ ".",
          in_text := "[1]" }) :=
  c9_ieee_authors ["Jane Ann Doe", "Al Bo"] (by decide) (by decide)

/-- Counterexample to C9 as stated: the backend IEEE formatter leaves the
author name "Jane Doe" unabbreviated, where the claimed rendering is
"J. Doe". -/
theorem c9_counterexample :
    Backend.generate_ieee
        { title := "T", authors := ["Jane Doe"], year := some 2024,
          publication_name := "J" } =
      { full := "[1] Jane Doe, \"T,\" J, 2024.", in_text := "[1]" } ∧
    ieeeAuthorSpecOne "Jane Doe" = "J. Doe" ∧
    ("Jane Doe" : String) ≠ "J. Doe" := by
  exact ⟨by decide, by decide, by decide⟩

end CiteGuard

namespace CiteGuard

/-- Claim C10 (amended): with an empty authors list, every backend style
returns without raising and renders the author slot of the full citation as
the literal "Unknown"; the standalone src/Citation.py formatter instead raises
IndexError for the APA and Harvard styles, while its MLA, Chicago and IEEE
styles return successfully with an empty author slot (the full citation opens
directly with the post-author punctuation or quoted title, never with
"Unknown"). -/
theorem c10_empty_authors (m : Backend.BMeta) (h : m.authors = []) :
    (∃ t, (Backend.generate_apa m).full = "Unknown" ++ t) ∧
    (∃ t, (Backend.generate_mla m).full = "Unknown" ++ t) ∧
    (∃ t, (Backend.generate_chicago m).full = "Unknown" ++ t) ∧
    (∃ t, (Backend.generate_harvard m).full = "Unknown" ++ t) ∧
    (∃ t, (Backend.generate_ieee m).full = "[1] " ++ "Unknown" ++ t) ∧
    (∀ rm : RootCit.RMeta, rm.authors = [] →
      RootCit.generate_apa rm = Except.error "IndexError: list index out of range" ∧
      RootCit.generate_harvard rm = Except.error "IndexError: list index out of range" ∧
      (∃ rest, (RootCit.generate_mla rm).map (fun r => r.full) =
        Except.ok ("\"" ++ rm.title ++ ".\" " ++ rest)) ∧
      (∃ rest, (RootCit.generate_chicago rm).map (fun r => r.full) =
        Except.ok (". " ++ rest)) ∧
      (∃ rest, (RootCit.generate_ieee rm).map (fun r => r.full) =
        Except.ok (", \"" ++ rm.title ++ ",\" " ++ rest))) := by
  refine ⟨?_, ?_, ?_, ?_, ?_, ?_⟩
  · by_cases hurl : m.url = ""
    · exact ⟨" (" ++ yearOr m.year "n.d." ++ "). " ++ m.title ++ ". " ++
          m.publication_name ++ ".",
        by simp [Backend.generate_apa, h, hurl, ← String.append_assoc]⟩
    · exact ⟨" (" ++ yearOr m.year "n.d." ++ "). " ++ m.title ++ ". " ++
          m.publication_name ++ "." ++ " Retrieved from " ++ m.url,
        by simp [Backend.generate_apa, h, hurl, ← String.append_assoc]⟩
  · exact ⟨". \"" ++ m.title ++ ".\" " ++ m.publication_name ++ ", " ++
        yearOr m.year "n.d." ++ ".",
      by simp [Backend.generate_mla, h, ← String.append_assoc]⟩
  · exact ⟨". \"" ++ m.title ++ ".\" " ++ m.publication_name ++ " (" ++
        yearOr m.year "n.d." ++ ").",
      by simp [Backend.generate_chicago, h, ← String.append_assoc]⟩
  · exact ⟨", " ++ yearOr m.year "n.d.d" ++ ". " ++ m.title ++ ". " ++
        m.publication_name ++ ".",
      by simp [Backend.generate_harvard, h, ← String.append_assoc]⟩
  · exact ⟨", \"" ++ m.title ++ ",\" " ++ m.publication_name ++ ", " ++
        yearOr m.year "n.d." ++ ".",
      by simp [Backend.generate_ieee, h, ← String.append_assoc]⟩
  · intro rm hrm
    refine ⟨by simp [RootCit.generate_apa, hrm],
      by simp [RootCit.generate_harvard, RootCit.generate_apa, hrm], ?_, ?_, ?_⟩
    · by_cases ht1 : rm.source_type = "article"
      · exact ⟨RootCit.addIf rm.publication_name (fun p => "*" ++ p ++ "*, ") ++
            RootCit.addIf rm.volume (fun v => "vol. " ++ v ++ ", ") ++
            RootCit.addIf rm.issue (fun i => "no. " ++ i ++ ", ") ++
            RootCit.addIfYear rm.year (fun y => y ++ ", ") ++
            RootCit.addIf rm.pages (fun p => "pp. " ++ p ++ "."),
          by simp [RootCit.generate_mla, hrm, ht1, format_authors_mla,
            Except.map, Except.pure, Except.bind, Except.instMonad, ← String.append_assoc]⟩
      · by_cases ht2 : rm.source_type = "book"
        · exact ⟨"*" ++ RootCit.optStr rm.publication_name "Publisher" ++ "*, " ++
              yearOr rm.year "n.d." ++ ".",
            by simp [RootCit.generate_mla, hrm, ht1, ht2, format_authors_mla,
              Except.map, Except.pure, Except.bind, Except.instMonad, ← String.append_assoc]⟩
        · by_cases ht3 : rm.source_type = "website"
          · exact ⟨RootCit.addIf rm.publication_name (fun p => "*" ++ p ++ "*, ") ++
                RootCit.addIfYear rm.year (fun y => y ++ ", ") ++
                RootCit.addIf rm.url (fun u => u),
              by simp [RootCit.generate_mla, hrm, ht1, ht2, ht3,
                format_authors_mla, Except.map, Except.pure, Except.bind, Except.instMonad, ← String.append_assoc]⟩
          · exact ⟨"", by simp [RootCit.generate_mla, hrm, ht1, ht2, ht3,
              format_authors_mla, Except.map, Except.pure, Except.bind, Except.instMonad, ← String.append_assoc]⟩
    · exact ⟨RootCit.addIfYear rm.year (fun y => y ++ ". ") ++
          "\"" ++ rm.title ++ ".\" " ++
          RootCit.addIf rm.publication_name (fun p => "*" ++ p ++ "* ") ++
          RootCit.addIf rm.volume (fun v => v ++ " ") ++
          RootCit.addIf rm.issue (fun i => "(" ++ i ++ ")") ++
          RootCit.addIf rm.pages (fun p => ": " ++ p) ++ ".",
        by simp [RootCit.generate_chicago, hrm, format_authors_apa,
          Except.map, Except.pure, Except.bind, Except.instMonad, ← String.append_assoc]⟩
    · exact ⟨RootCit.addIf rm.publication_name (fun p => "*" ++ p ++ "*, ") ++
          RootCit.addIf rm.volume (fun v => "vol. " ++ v ++ ", ") ++
          RootCit.addIf rm.issue (fun i => "no. " ++ i ++ ", ") ++
          RootCit.addIf rm.pages (fun p => "pp. " ++ p ++ ", ") ++
          RootCit.addIfYear rm.year (fun y => y ++ "."),
        by simp [RootCit.generate_ieee, hrm,
          show RootCit.ieeeAuthorsStr ([] : List String) = Except.ok "" from rfl,
          Except.map, Except.pure, Except.bind, Except.instMonad, ← String.append_assoc]⟩

/-- Witness for C10 at a concrete metadata record. -/
theorem c10_empty_authors_witness :
    (∃ t, (Backend.generate_apa { title := "T" }).full = "Unknown" ++ t) ∧
    (∃ t, (Backend.generate_mla { title := "T" }).full = "Unknown" ++ t) ∧
    (∃ t, (Backend.generate_chicago { title := "T" }).full = "Unknown" ++ t) ∧
    (∃ t, (Backend.generate_harvard { title := "T" }).full = "Unknown" ++ t) ∧
    (∃ t, (Backend.generate_ieee { title := "T" }).full = "[1] " ++ "Unknown" ++ t) ∧
    (∀ rm : RootCit.RMeta, rm.authors = [] →
      RootCit.generate_apa rm = Except.error "IndexError: list index out of range" ∧
      RootCit.generate_harvard rm = Except.error "IndexError: list index out of range" ∧
      (∃ rest, (RootCit.generate_mla rm).map (fun r => r.full) =
        Except.ok ("\"" ++ rm.title ++ ".\" " ++ rest)) ∧
      (∃ rest, (RootCit.generate_chicago rm).map (fun r => r.full) =
        Except.ok (". " ++ rest)) ∧
      (∃ rest, (RootCit.generate_ieee rm).map (fun r => r.full) =
        Except.ok (", \"" ++ rm.title ++ ",\" " ++ rest))) :=
  c10_empty_authors { title := "T" } rfl

/-- Counterexample to C10 as stated: src/Citation.py raises IndexError for the
APA style on an empty authors list instead of returning a citation with the
author slot "Unknown". -/
theorem c10_counterexample :
    RootCit.generate_citation { title := "T", authors := [] } "APA" =
      Except.error "IndexError: list index out of range" := by
  decide

end CiteGuard
